import Mathlib

/-!
Verification of the DNS-over-QUIC client stream module
(`crates/proto/src/quic/quic_client_stream.rs`).

The development shallowly embeds the module's data model and operations:
pure functions become Lean functions, the poll-based asynchronous calls
become explicit outcome values fed to the control-flow function they drive,
and fallible code returns `Except`.  Machine integers are modelled as `Nat`
with explicit `% 2 ^ w` where wrap-around matters.
-/

set_option autoImplicit false

namespace TrustDnsQuic

/-- Result of polling an asynchronous operation (`std::task::Poll`):
either ready with a value or pending (the caller is suspended until woken). -/
inductive Poll (α : Type) where
  | ready (value : α)
  | pending
deriving DecidableEq, Repr

/-- The `std::io::ErrorKind` values the adapter distinguishes: `WouldBlock`
and `InvalidInput` are matched on explicitly; every other kind is opaque. -/
inductive IoErrorKind where
  | wouldBlock
  | invalidInput
  | otherKind (tag : Nat)
deriving DecidableEq, Repr

/-- A socket address (`std::net::SocketAddr`), modelled as ip and port. -/
structure SocketAddr where
  ip : Nat
  port : Nat
deriving DecidableEq, Repr

/-! ## SocketAdapter: `QuinnAsyncUdpSocketAdapter::poll_send`

The adapter iterates over the batch of transmits, polling
`io.poll_send_to` once per transmit.  We model the sequence of socket
responses, in batch order, as a list of `SendToResult`; the datagram
contents and destinations do not influence the adapter's control flow. -/

/-- Outcome of one `io.poll_send_to(cx, contents, destination)` call:
ready with the number of bytes sent, ready with an io error of some kind,
or pending (the would-block state of a poll-based socket). -/
inductive SendToResult where
  | okSent (bytes : Nat)
  | errReady (kind : IoErrorKind)
  | pending
deriving DecidableEq, Repr

/-- The loop body of `QuinnAsyncUdpSocketAdapter::poll_send`
(quic_client_stream.rs lines 373-417), with `sent` the count accumulated
so far.  Match-arm order follows the source: any ready error with
`sent != 0` returns `Ok(sent)`; otherwise a `WouldBlock` error is returned
as an error; any other error is swallowed and the datagram counted as
sent; `Poll::Pending` suspends when `sent == 0` and returns `Ok(sent)`
otherwise; an exhausted batch returns `Ok(sent)`. -/
def pollSendLoop : List SendToResult → Nat → Poll (Except IoErrorKind Nat)
  | [], sent => .ready (.ok sent)
  | outcome :: rest, sent =>
    match outcome with
    | .okSent _ => pollSendLoop rest (sent + 1)
    | .errReady kind =>
      if sent ≠ 0 then .ready (.ok sent)
      else if kind = .wouldBlock then .ready (.error kind)
      else pollSendLoop rest (sent + 1)
    | .pending => if sent = 0 then .pending else .ready (.ok sent)

/-- `QuinnAsyncUdpSocketAdapter::poll_send`, as a function of the socket's
per-transmit responses. -/
def poll_send (outcomes : List SendToResult) : Poll (Except IoErrorKind Nat) :=
  pollSendLoop outcomes 0

/-! ## SocketAdapter: `QuinnAsyncUdpSocketAdapter::poll_recv` -/

/-- A `quinn::udp::RecvMeta` record, as the adapter fills it:
length, stride, source address, congestion marking, destination hint. -/
structure RecvMeta where
  len : Nat
  stride : Nat
  addr : SocketAddr
  ecn : Option Nat
  dst_ip : Option Nat
deriving DecidableEq, Repr

/-- Outcome of the single `io.poll_recv_from(cx, buf)` call: ready with a
received length and source address, ready with an io error, or pending. -/
inductive RecvFromResult where
  | okRecv (len : Nat) (addr : SocketAddr)
  | errRecv (kind : IoErrorKind)
  | pending
deriving DecidableEq, Repr

instance {ε α : Type} [DecidableEq ε] [DecidableEq α] : DecidableEq (Except ε α) :=
  fun x y =>
    match x, y with
    | .ok a, .ok b =>
      if h : a = b then .isTrue (by rw [h])
      else .isFalse (by intro he; cases he; exact h rfl)
    | .error a, .error b =>
      if h : a = b then .isTrue (by rw [h])
      else .isFalse (by intro he; cases he; exact h rfl)
    | .ok _, .error _ => .isFalse (by intro he; cases he)
    | .error _, .ok _ => .isFalse (by intro he; cases he)

/-- Observable result of one `poll_recv` call: the metadata array after the
call together with the returned poll value, or the out-of-bounds write
`meta[0] = ...` on an empty metadata slice (an index panic in the source). -/
inductive PollRecvOutcome where
  | result (metaOut : List RecvMeta) (res : Poll (Except IoErrorKind Nat))
  | metaOutOfBounds
deriving DecidableEq, Repr

/-- `QuinnAsyncUdpSocketAdapter::poll_recv` (quic_client_stream.rs lines
419-450).  `bufs` is the number of buffer slots supplied (only emptiness
of the slice matters to control flow); `meta` is the metadata slice;
`recvFrom` is the underlying socket's response, consulted only when a
buffer slot exists.  With no buffer slot the call returns a ready
`InvalidInput` error; on a successful receive it writes length, stride
equal to length, the source address, no congestion marking and no
destination hint into `meta[0]` and reports one datagram; errors and
pending are propagated. -/
def poll_recv (bufs : Nat) (meta : List RecvMeta) (recvFrom : RecvFromResult) :
    PollRecvOutcome :=
  if bufs = 0 then .result meta (.ready (.error .invalidInput))
  else
    match recvFrom with
    | .okRecv len addr =>
      match meta with
      | [] => .metaOutOfBounds
      | _ :: tail =>
        .result ({ len := len, stride := len, addr := addr,
                   ecn := none, dst_ip := none } :: tail)
          (.ready (.ok 1))
    | .errRecv kind => .result meta (.ready (.error kind))
    | .pending => .result meta .pending

/-! ## Messages, requests and framing -/

/-- Modelled from the spec: the DNS message of the codec collaborator
(`crate::op::Message`, outside this module).  Only the 16-bit message id
header field and the rest of the encoding, kept opaque, are needed. -/
structure Message where
  id : Nat
  body : List Nat
deriving DecidableEq, Repr

/-- `Message::set_id` stores a 16-bit id. -/
def Message.set_id (m : Message) (newId : Nat) : Message :=
  { m with id := newId % 65536 }

/-- Modelled from the spec: the codec's wire encoding opens with the
16-bit message id in big-endian order, followed by the rest of the
message. -/
def Message.encode (m : Message) : List Nat :=
  (m.id % 65536) / 256 :: (m.id % 256) :: m.body

/-- Modelled from the spec: request options travelling with a
`DnsRequest` (opaque to this module). -/
structure DnsRequestOptions where
  use_edns : Bool
deriving DecidableEq, Repr

/-- Modelled from the spec: a `DnsRequest` is an opaque DNS message
payload together with its options. -/
structure DnsRequest where
  message : Message
  options : DnsRequestOptions
deriving DecidableEq, Repr

/-- `DnsRequest::into_parts` yields the message and the options. -/
def DnsRequest.into_parts (r : DnsRequest) : Message × DnsRequestOptions :=
  (r.message, r.options)

/-- Modelled from the spec: `QuicStream::send` (quic_stream.rs, not under
src/) normalizes the message id to zero and writes the encoded message
framed with a 2-byte big-endian length prefix on the stream's send half. -/
def quicStreamSendBytes (m : Message) : List Nat :=
  ((m.set_id 0).encode.length % 65536) / 256 ::
    ((m.set_id 0).encode.length % 256) :: (m.set_id 0).encode

/-- The message id carried by a framed transmission: the two bytes after
the 2-byte length prefix, read big-endian. -/
def frameMessageId : List Nat → Option Nat
  | _ :: _ :: hi :: lo :: _ => some (hi * 256 + lo)
  | _ => none

/-! ## Connection, client stream and lifecycle -/

/-- Modelled from the spec: `DoqErrorCode` (quic_stream.rs, not under
src/); only the fixed no-error variant is used by this module. -/
inductive DoqErrorCode where
  | noError
deriving DecidableEq, Repr

/-- The underlying `quinn::Connection`, observed through the one effect
this module applies to it: `close(code, reason)`. -/
structure Connection where
  closedWith : Option (DoqErrorCode × String)
deriving DecidableEq, Repr

/-- `Connection::close` records the close code and reason. -/
def Connection.close (c : Connection) (code : DoqErrorCode) (reason : String) :
    Connection :=
  { c with closedWith := some (code, reason) }

/-- A `ProtoError` (opaque to this module beyond its description). -/
inductive ProtoError where
  | protoError (description : String)
deriving DecidableEq, Repr

/-- Observable effect of `QuicClientStream::inner_send` on its success
path: exactly one bidirectional stream opened via `open_bi`, the framed
request written by `QuicStream::send`, then the send half finished. -/
structure Transmission where
  streamsOpened : Nat
  bytesSent : List Nat
  finSent : Bool
deriving DecidableEq, Repr

/-- `QuicClientStream::inner_send` (quic_client_stream.rs lines 57-74):
opens one bidirectional stream and sends `message.into_parts().0` through
`QuicStream::send`, then finishes the send half. -/
def inner_send (_connection : Connection) (message : DnsRequest) : Transmission :=
  { streamsOpened := 1
    bytesSent := quicStreamSendBytes message.into_parts.1
    finSent := true }

/-- `QuicClientStream` (quic_client_stream.rs lines 34-39). -/
structure QuicClientStream where
  quic_connection : Connection
  name_server_name : String
  name_server : SocketAddr
  is_shutdown : Bool
deriving DecidableEq, Repr

/-- Result of `send_message`: either the contract-violation panic taken
when the stream is shut down, or the dispatched send with its observable
transmission. -/
inductive SendMessageResult where
  | contractViolation (reason : String)
  | sendStarted (t : Transmission)
deriving DecidableEq, Repr

/-- Streams opened by a `send_message` call: none on the panic branch. -/
def SendMessageResult.streamsOpened : SendMessageResult → Nat
  | .contractViolation _ => 0
  | .sendStarted t => t.streamsOpened

/-- Bytes transmitted by a `send_message` call: none on the panic branch. -/
def SendMessageResult.bytesSent : SendMessageResult → List Nat
  | .contractViolation _ => []
  | .sendStarted t => t.bytesSent

/-- `QuicClientStream::send_message` (lines 117-123): panics when the
stream is shut down, otherwise dispatches `inner_send` on a clone of the
connection. -/
def send_message (s : QuicClientStream) (message : DnsRequest) :
    SendMessageResult :=
  if s.is_shutdown then
    .contractViolation "can not send messages after stream is shutdown"
  else .sendStarted (inner_send s.quic_connection message)

/-- `QuicClientStream::shutdown` (lines 125-129): sets the shutdown flag
and closes the underlying connection with the no-error DoQ code and the
reason `Shutdown`. -/
def shutdown (s : QuicClientStream) : QuicClientStream :=
  { s with is_shutdown := true
           quic_connection := s.quic_connection.close .noError "Shutdown" }

/-- `Stream::poll_next` for `QuicClientStream` (lines 139-145): end of
stream when shut down, otherwise one ready item carrying only `Ok(())`. -/
def poll_next (s : QuicClientStream) : Poll (Option (Except ProtoError Unit)) :=
  if s.is_shutdown then .ready none else .ready (some (.ok ()))

/-- The operations callable on a `QuicClientStream` after construction. -/
inductive StreamOp where
  | shutdownOp
  | sendMessageOp (message : DnsRequest)
  | pollNextOp
deriving Repr

/-- State transition of each operation: `shutdown` mutates the stream;
`send_message` and `poll_next` read the flag but assign no field. -/
def applyOp (s : QuicClientStream) : StreamOp → QuicClientStream
  | .shutdownOp => shutdown s
  | .sendMessageOp _ => s
  | .pollNextOp => s

/-! ## ConnectionBuilder / ConnectionEstablisher -/

/-- The pieces of `rustls::ClientConfig` this module reads or writes:
the ALPN protocol list and the early-data flag. -/
structure TlsClientConfig where
  alpn_protocols : List (List Nat)
  enable_early_data : Bool
deriving DecidableEq, Repr

/-- Modelled from the spec: the fixed DoQ protocol identifier
(`DOQ_ALPN` in quic_stream.rs, not under src/), the bytes of `doq`. -/
def DOQ_ALPN : List Nat := [100, 111, 113]

/-- `client_config_tls13` (lines 277-318) on its success path: a rustls
config pinned to TLS 1.3 with populated roots and no client certificate;
the builder leaves the ALPN list empty and early data disabled. -/
def client_config_tls13 : TlsClientConfig :=
  { alpn_protocols := [], enable_early_data := false }

/-- The crypto-config resolution of `connect_inner` (lines 239-247): take
the caller-supplied config or build the default, then inject the fixed
DoQ identifier exactly when the ALPN list is empty. -/
def resolveCryptoConfig (supplied : Option TlsClientConfig) : TlsClientConfig :=
  let crypto_config :=
    match supplied with
    | some c => c
    | none => client_config_tls13
  if crypto_config.alpn_protocols.isEmpty then
    { crypto_config with alpn_protocols := [DOQ_ALPN] }
  else crypto_config

/-- The pending `quinn::Connecting` future, observed through the two ways
`connect_inner` consumes it: `into_0rtt` acceptance yields a connection
immediately, and awaiting it runs the full handshake to its outcome. -/
structure Connecting where
  zeroRttAccepted : Bool
  earlyConnection : Connection
  handshake : Except ProtoError Connection
deriving DecidableEq, Repr

/-- `Connecting::into_0rtt`: on acceptance the connection handle, on
rejection the connecting future is handed back to be awaited. -/
def into_0rtt (connecting : Connecting) : Except Connecting Connection :=
  if connecting.zeroRttAccepted then .ok connecting.earlyConnection
  else .error connecting

/-- The connection-selection step of `connect_inner` (lines 258-265).
The boolean records whether the full handshake was awaited. -/
def connectionFromConnecting (early_data_enabled : Bool)
    (connecting : Connecting) : Except ProtoError (Connection × Bool) :=
  if early_data_enabled then
    match into_0rtt connecting with
    | .ok new_connection => .ok (new_connection, false)
    | .error connecting => connecting.handshake.map (fun c => (c, true))
  else connecting.handshake.map (fun c => (c, true))

/-! ## Concrete values used by witnesses -/

/-- A concrete socket address. -/
def exampleAddr : SocketAddr := { ip := 0, port := 853 }

/-- A concrete open connection. -/
def exampleConnection : Connection := { closedWith := none }

/-- A concrete live client stream. -/
def exampleStream : QuicClientStream :=
  { quic_connection := exampleConnection
    name_server_name := "ns.example"
    name_server := exampleAddr
    is_shutdown := false }

/-- A concrete request with a nonzero caller-supplied message id. -/
def exampleRequest : DnsRequest :=
  { message := { id := 4660, body := [1, 2] }
    options := { use_edns := false } }

/-- A concrete connecting future. -/
def exampleConnecting (accepted : Bool) (handshake : Except ProtoError Connection) :
    Connecting :=
  { zeroRttAccepted := accepted
    earlyConnection := exampleConnection
    handshake := handshake }

/-! ## Helper lemmas -/

/-- Running the send loop over a run of successful sends adds the run's
length to the accumulated count. -/
theorem pollSendLoop_ok_run (pre : List SendToResult) (l : List SendToResult)
    (sent : Nat) (hpre : ∀ x ∈ pre, ∃ n, x = SendToResult.okSent n) :
    pollSendLoop (pre ++ l) sent = pollSendLoop l (sent + pre.length) := by
  induction pre generalizing sent with
  | nil => simp
  | cons head tail ih =>
    obtain ⟨n, rfl⟩ := hpre head (List.mem_cons_self _ _)
    rw [List.cons_append]
    show pollSendLoop (tail ++ l) (sent + 1) = _
    rw [ih (sent + 1) (fun x hx => hpre x (List.mem_cons_of_mem _ hx))]
    congr 1
    simp [Nat.add_comm, Nat.add_assoc, Nat.add_left_comm]

/-- No operation resets the shutdown flag. -/
theorem applyOp_preserves_shutdown (s : QuicClientStream)
    (h : s.is_shutdown = true) (op : StreamOp) :
    (applyOp s op).is_shutdown = true := by
  cases op <;> simp [applyOp, shutdown, h]

/-- No sequence of operations resets the shutdown flag. -/
theorem foldl_applyOp_preserves_shutdown (ops : List StreamOp)
    (s : QuicClientStream) (h : s.is_shutdown = true) :
    (List.foldl applyOp s ops).is_shutdown = true := by
  induction ops generalizing s with
  | nil => exact h
  | cons op rest ih => exact ih _ (applyOp_preserves_shutdown s h op)

/-! ## Claims -/

/-- C1: for every DnsRequest passed to send_message, regardless of the
caller-supplied message id, the message transmitted on the query's stream
carries message id zero: the outgoing id is normalized to zero before
serialization and transmission. -/
theorem outgoing_message_id_is_zero (connection : Connection)
    (request : DnsRequest) :
    frameMessageId (inner_send connection request).bytesSent = some 0 := by
  simp [inner_send, quicStreamSendBytes, Message.encode, Message.set_id,
    DnsRequest.into_parts, frameMessageId]

/-- C2 counterexample: with zero datagrams sent so far, a non-would-block
error on the first datagram is not propagated as fatal — the adapter
counts the failing datagram as sent and returns one datagram sent; and
with one datagram already sent, a non-would-block error returns a count
of one, so the failing datagram is not counted as sent. -/
theorem adapter_send_error_claim_counterexample :
    poll_send [SendToResult.errReady (IoErrorKind.otherKind 0)] =
      Poll.ready (Except.ok 1) ∧
    poll_send [SendToResult.errReady (IoErrorKind.otherKind 0)] ≠
      Poll.ready (Except.error (IoErrorKind.otherKind 0)) ∧
    poll_send [SendToResult.okSent 1,
      SendToResult.errReady (IoErrorKind.otherKind 0), SendToResult.okSent 1] =
      Poll.ready (Except.ok 1) := by decide

/-- C2 amended: in poll_send, on a ready non-would-block error: if at
least one datagram was already sent in this call, the call returns the
count sent so far immediately, without counting the failing datagram; if
nothing has been sent yet, the error is swallowed, the failing datagram
is counted as sent, and iteration continues with the rest of the batch. -/
theorem adapter_send_error_semantics :
    (∀ (rest : List SendToResult) (kind : IoErrorKind) (sent : Nat),
      kind ≠ IoErrorKind.wouldBlock → sent ≠ 0 →
      pollSendLoop (SendToResult.errReady kind :: rest) sent =
        Poll.ready (Except.ok sent)) ∧
    (∀ (rest : List SendToResult) (kind : IoErrorKind),
      kind ≠ IoErrorKind.wouldBlock →
      pollSendLoop (SendToResult.errReady kind :: rest) 0 =
        pollSendLoop rest 1) := by
  constructor
  · intro rest kind sent _hk hs
    simp [pollSendLoop, hs]
  · intro rest kind hk
    simp [pollSendLoop, hk]

/-- Witness for C2's amended theorem at concrete inputs. -/
theorem adapter_send_error_semantics_witness :
    pollSendLoop [SendToResult.errReady (IoErrorKind.otherKind 7)] 2 =
      Poll.ready (Except.ok 2) ∧
    pollSendLoop [SendToResult.errReady (IoErrorKind.otherKind 7)] 0 =
      pollSendLoop [] 1 :=
  ⟨adapter_send_error_semantics.1 [] (IoErrorKind.otherKind 7) 2
      (by decide) (by decide),
    adapter_send_error_semantics.2 [] (IoErrorKind.otherKind 7) (by decide)⟩

/-- C3: when zero datagrams have been sent so far and the send of the
first datagram reports the would-block condition of the poll contract
(`Poll::Pending`), the call suspends the caller until the socket becomes
writable — returning neither a zero count nor an error. -/
theorem adapter_send_first_pending_suspends (rest : List SendToResult) :
    poll_send (SendToResult.pending :: rest) = Poll.pending := rfl

/-- C4: over a batch whose first `M` sends succeed (`0 < M`) and whose
next send reports would-block, poll_send returns `M` sent immediately
without suspending; this holds whether would-block arrives as
`Poll::Pending` or as a ready `WouldBlock` error. -/
theorem adapter_send_partial_progress_returns_count
    (pre : List SendToResult) (rest : List SendToResult)
    (hpre : ∀ x ∈ pre, ∃ n, x = SendToResult.okSent n)
    (hM : 0 < pre.length) :
    poll_send (pre ++ SendToResult.pending :: rest) =
      Poll.ready (Except.ok pre.length) ∧
    poll_send (pre ++ SendToResult.errReady IoErrorKind.wouldBlock :: rest) =
      Poll.ready (Except.ok pre.length) := by
  have hne : pre ≠ [] := List.ne_nil_of_length_pos hM
  constructor
  · rw [poll_send, pollSendLoop_ok_run pre _ 0 hpre]
    simp [pollSendLoop, hne]
  · rw [poll_send, pollSendLoop_ok_run pre _ 0 hpre]
    simp [pollSendLoop, hne]

/-- Witness for C4 at a concrete batch: one success then pending. -/
theorem adapter_send_partial_progress_returns_count_witness :
    poll_send ([SendToResult.okSent 12] ++ SendToResult.pending :: []) =
      Poll.ready (Except.ok (List.length [SendToResult.okSent 12])) ∧
    poll_send ([SendToResult.okSent 12] ++
        SendToResult.errReady IoErrorKind.wouldBlock :: []) =
      Poll.ready (Except.ok (List.length [SendToResult.okSent 12])) :=
  adapter_send_partial_progress_returns_count [SendToResult.okSent 12] []
    (fun x hx => ⟨12, by simpa using hx⟩) (by decide)

/-- C5: on a stream whose shutdown flag is true, send_message takes the
contract-violation panic branch before any stream is created — no stream
is opened and no bytes are transmitted; under the precondition that the
stream is not shut down, that branch is unreachable and the send is
dispatched. -/
theorem send_message_shutdown_contract (s : QuicClientStream)
    (message : DnsRequest) :
    (s.is_shutdown = true →
      send_message s message =
        SendMessageResult.contractViolation
          "can not send messages after stream is shutdown" ∧
      (send_message s message).streamsOpened = 0 ∧
      (send_message s message).bytesSent = []) ∧
    (s.is_shutdown = false →
      send_message s message =
        SendMessageResult.sendStarted (inner_send s.quic_connection message)) := by
  constructor
  · intro h
    simp [send_message, h, SendMessageResult.streamsOpened,
      SendMessageResult.bytesSent]
  · intro h
    simp [send_message, h]

/-- Witness for C5 at a concrete shut-down stream and a concrete live
stream. -/
theorem send_message_shutdown_contract_witness :
    send_message { exampleStream with is_shutdown := true } exampleRequest =
      SendMessageResult.contractViolation
        "can not send messages after stream is shutdown" ∧
    (send_message { exampleStream with is_shutdown := true }
        exampleRequest).streamsOpened = 0 ∧
    send_message exampleStream exampleRequest =
      SendMessageResult.sendStarted
        (inner_send exampleStream.quic_connection exampleRequest) :=
  ⟨((send_message_shutdown_contract
        { exampleStream with is_shutdown := true } exampleRequest).1 rfl).1,
    ((send_message_shutdown_contract
        { exampleStream with is_shutdown := true } exampleRequest).1 rfl).2.1,
    (send_message_shutdown_contract exampleStream exampleRequest).2 rfl⟩

/-- C6: shutdown is an idempotent one-way transition: after it,
is_shutdown is true and stays true under every sequence of further
operations, a second shutdown leaves the state unchanged, and the
underlying connection is closed with the no-error DoQ code and the reason
string `Shutdown`. -/
theorem shutdown_idempotent_one_way (s : QuicClientStream) :
    (shutdown s).is_shutdown = true ∧
    shutdown (shutdown s) = shutdown s ∧
    (shutdown s).quic_connection.closedWith =
      some (DoqErrorCode.noError, "Shutdown") ∧
    (∀ ops : List StreamOp,
      (List.foldl applyOp (shutdown s) ops).is_shutdown = true) :=
  ⟨rfl, rfl, rfl,
    fun ops => foldl_applyOp_preserves_shutdown ops (shutdown s) rfl⟩

/-- C7: the crypto configuration resolved by connect_inner receives the
fixed DoQ identifier exactly when its ALPN list is empty: an empty list
(caller-supplied or the default's) is replaced by the singleton DoQ
identifier and a non-empty caller-supplied list is preserved unchanged. -/
theorem alpn_injected_iff_empty (c : TlsClientConfig) :
    (c.alpn_protocols = [] →
      resolveCryptoConfig (some c) = { c with alpn_protocols := [DOQ_ALPN] }) ∧
    (c.alpn_protocols ≠ [] → resolveCryptoConfig (some c) = c) ∧
    resolveCryptoConfig none =
      { client_config_tls13 with alpn_protocols := [DOQ_ALPN] } := by
  refine ⟨?_, ?_, rfl⟩
  · intro h
    simp [resolveCryptoConfig, h]
  · intro h
    simp [resolveCryptoConfig, h]

/-- Witness for C7 at a concrete empty and a concrete non-empty ALPN
list. -/
theorem alpn_injected_iff_empty_witness :
    resolveCryptoConfig
        (some { alpn_protocols := [], enable_early_data := false }) =
      { alpn_protocols := [DOQ_ALPN], enable_early_data := false } ∧
    resolveCryptoConfig
        (some { alpn_protocols := [[104]], enable_early_data := true }) =
      { alpn_protocols := [[104]], enable_early_data := true } :=
  ⟨(alpn_injected_iff_empty
      { alpn_protocols := [], enable_early_data := false }).1 rfl,
    (alpn_injected_iff_empty
      { alpn_protocols := [[104]], enable_early_data := true }).2.1
      (by decide)⟩

/-- C8: with early data enabled, connect_inner takes the zero-round-trip
path: on acceptance the connection is used immediately without awaiting
the full handshake; on rejection the full handshake outcome is returned
transparently, so the rejection itself is never surfaced as an error —
the attempt fails only if the full handshake itself fails. -/
theorem early_data_fallback_not_error (connecting : Connecting) :
    (connecting.zeroRttAccepted = true →
      connectionFromConnecting true connecting =
        Except.ok (connecting.earlyConnection, false)) ∧
    (connecting.zeroRttAccepted = false →
      connectionFromConnecting true connecting =
        connecting.handshake.map (fun c => (c, true))) ∧
    (∀ e : ProtoError, connectionFromConnecting true connecting =
        Except.error e → connecting.handshake = Except.error e) := by
  refine ⟨?_, ?_, ?_⟩
  · intro h
    simp [connectionFromConnecting, into_0rtt, h]
  · intro h
    simp [connectionFromConnecting, into_0rtt, h]
  · intro e h
    cases hz : connecting.zeroRttAccepted with
    | true => simp [connectionFromConnecting, into_0rtt, hz] at h
    | false =>
      cases hh : connecting.handshake with
      | ok c =>
        simp [connectionFromConnecting, into_0rtt, hz, hh, Except.map] at h
      | error err =>
        simp [connectionFromConnecting, into_0rtt, hz, hh, Except.map] at h
        rw [h]

/-- Witness for C8 at a concrete accepted attempt, a concrete rejected
attempt with a successful handshake, and a concrete rejected attempt with
a failing handshake. -/
theorem early_data_fallback_not_error_witness :
    connectionFromConnecting true
        (exampleConnecting true (Except.ok exampleConnection)) =
      Except.ok (exampleConnection, false) ∧
    connectionFromConnecting true
        (exampleConnecting false (Except.ok exampleConnection)) =
      (Except.ok exampleConnection).map (fun c => (c, true)) ∧
    (exampleConnecting false
        (Except.error (ProtoError.protoError "handshake failed"))).handshake =
      Except.error (ProtoError.protoError "handshake failed") :=
  ⟨(early_data_fallback_not_error
      (exampleConnecting true (Except.ok exampleConnection))).1 rfl,
    (early_data_fallback_not_error
      (exampleConnecting false (Except.ok exampleConnection))).2.1 rfl,
    (early_data_fallback_not_error
      (exampleConnecting false
        (Except.error (ProtoError.protoError "handshake failed")))).2.2
      (ProtoError.protoError "handshake failed") rfl⟩

/-- C9: each poll of the liveness signal while the connection is active
yields exactly one ready notification carrying no data (`Ok(())`); once
the connection is shut down every further poll — after any sequence of
further operations — yields end of stream, never another notification. -/
theorem poll_next_liveness (s : QuicClientStream) :
    (s.is_shutdown = false →
      poll_next s = Poll.ready (some (Except.ok ()))) ∧
    (s.is_shutdown = true → poll_next s = Poll.ready none) ∧
    (∀ ops : List StreamOp,
      poll_next (List.foldl applyOp (shutdown s) ops) = Poll.ready none) := by
  refine ⟨?_, ?_, ?_⟩
  · intro h
    simp [poll_next, h]
  · intro h
    simp [poll_next, h]
  · intro ops
    have h := foldl_applyOp_preserves_shutdown ops (shutdown s) rfl
    simp [poll_next, h]

/-- Witness for C9 at a concrete live stream and its shut-down state. -/
theorem poll_next_liveness_witness :
    poll_next exampleStream = Poll.ready (some (Except.ok ())) ∧
    poll_next { exampleStream with is_shutdown := true } = Poll.ready none :=
  ⟨(poll_next_liveness exampleStream).1 rfl,
    (poll_next_liveness { exampleStream with is_shutdown := true }).2.1 rfl⟩

/-- C10: called with an empty buffer batch, poll_recv returns a ready
InvalidInput error without consulting the underlying receive at all; with
a non-empty batch and a successful receive it writes length, stride equal
to length, the source address and empty markings into the first metadata
slot only — requiring that slot to exist, an empty metadata slice being
an out-of-bounds write — and reports exactly one datagram. -/
theorem poll_recv_meta_contract (meta : List RecvMeta)
    (recvFrom : RecvFromResult) :
    poll_recv 0 meta recvFrom =
      PollRecvOutcome.result meta
        (Poll.ready (Except.error IoErrorKind.invalidInput)) ∧
    (∀ (bufs : Nat) (m0 : RecvMeta) (tail : List RecvMeta)
        (len : Nat) (addr : SocketAddr), bufs ≠ 0 →
      poll_recv bufs (m0 :: tail) (RecvFromResult.okRecv len addr) =
        PollRecvOutcome.result
          ({ len := len, stride := len, addr := addr,
             ecn := none, dst_ip := none } :: tail)
          (Poll.ready (Except.ok 1))) ∧
    (∀ (bufs : Nat) (len : Nat) (addr : SocketAddr), bufs ≠ 0 →
      poll_recv bufs [] (RecvFromResult.okRecv len addr) =
        PollRecvOutcome.metaOutOfBounds) := by
  refine ⟨rfl, ?_, ?_⟩
  · intro bufs m0 tail len addr hb
    simp [poll_recv, hb]
  · intro bufs len addr hb
    simp [poll_recv, hb]

/-- Witness for C10 at concrete buffer counts, metadata slices and a
concrete successful receive. -/
theorem poll_recv_meta_contract_witness :
    poll_recv 0 [] RecvFromResult.pending =
      PollRecvOutcome.result []
        (Poll.ready (Except.error IoErrorKind.invalidInput)) ∧
    poll_recv 1
        [{ len := 0, stride := 0, addr := exampleAddr,
           ecn := none, dst_ip := none }]
        (RecvFromResult.okRecv 5 exampleAddr) =
      PollRecvOutcome.result
        [{ len := 5, stride := 5, addr := exampleAddr,
           ecn := none, dst_ip := none }]
        (Poll.ready (Except.ok 1)) ∧
    poll_recv 1 [] (RecvFromResult.okRecv 5 exampleAddr) =
      PollRecvOutcome.metaOutOfBounds :=
  ⟨(poll_recv_meta_contract [] RecvFromResult.pending).1,
    (poll_recv_meta_contract [] RecvFromResult.pending).2.1 1
      { len := 0, stride := 0, addr := exampleAddr,
        ecn := none, dst_ip := none } [] 5 exampleAddr (by decide),
    (poll_recv_meta_contract [] RecvFromResult.pending).2.2 1 5 exampleAddr
      (by decide)⟩

end TrustDnsQuic
